import Mathlib

/-!
Verification of `model_utils/models.py` (django-model-utils, strogonoff fork).

The file is embedded shallowly:

* ORM entities become Lean structures; the database rows of one caller-defined
  partition become a `List` of entities in the partition's enumeration order.
* Times (`datetime`) are an integer timeline `Int`.
* Python runtime errors (`UnboundLocalError`, `NameError`, `DoesNotExist`,
  `ImproperlyConfigured`, ...) become the `PyError` type, and fallible Python
  code returns `Except PyError _`.
* Python name-resolution semantics is embedded explicitly where the claims
  depend on it: a function-local variable read before its (syntactically
  later) assignment raises `UnboundLocalError`; a bare name that is not a
  function local is looked up among the module-level globals of `models.py`
  and raises `NameError` when absent.
* Code of this repository that is not under `src/` (`model_utils/fields.py`,
  `model_utils/managers.py`, the `update` helper) is modelled from the spec;
  each such definition carries a doc comment starting `Modelled from the
  spec:`.
-/

/-- Python runtime exceptions that the embedded code can raise. -/
inductive PyError where
  | unboundLocal (name : String)
  | nameError (name : String)
  | doesNotExist
  | multipleObjectsReturned
  | improperlyConfigured (msg : String)
  | attributeErrorNoneType (attr : String)
  deriving DecidableEq

/-- A positioned entity (an instance of a model using `PositionedModelMixin`).
`id` is the primary key, `position` the integer position field (the source's
`get_position_field_name()` returns the default name `position`). -/
structure Entity where
  id : Nat
  position : Int
  deriving DecidableEq

/-- The lookup dict built by `move_to` (`filter[...] = ...`): field name to
required value. -/
abbrev PartitionFilter := List (String × Int)

/-- Reading a Python function-local variable: `v` is the value the local holds
at the program point of the read (`none` when its assignment has not yet
executed, in which case the read raises `UnboundLocalError`). -/
def readLocal (v : Option String) (name : String) : Except PyError String :=
  match v with
  | some s => .ok s
  | none => .error (.unboundLocal name)

/-- The names bound at module level in `models.py`: its imports and its
top-level classes and functions.  Neither `Max` nor `move_to` is among them. -/
def moduleGlobals : List String :=
  ["warnings", "datetime", "models", "ContentType", "_",
   "FieldDoesNotExist", "ImproperlyConfigured", "manager_from",
   "InheritanceCastMixin", "QueryManager", "AutoCreatedField",
   "AutoLastModifiedField", "StatusField", "MonitorField", "update",
   "InheritanceCastModel", "TimeStampedModel", "TimeFramedModel",
   "StatusModel", "add_status_query_managers",
   "add_timeframed_query_manager", "PositionedModelMixin"]

/-- Resolving a bare Python name that is not a function local: found among the
module globals, or `NameError`. -/
def resolveGlobal (name : String) : Except PyError Unit :=
  if name ∈ moduleGlobals then .ok () else .error (.nameError name)

/-- Whether an entity satisfies every (field, value) pair of a lookup filter
(only the `position` field exists on `Entity`). -/
def entityMatches (flt : PartitionFilter) (e : Entity) : Bool :=
  flt.all fun kv => kv.1 == "position" && e.position == kv.2

/-- `self.__class__.objects.get(filter)` restricted to the partition: exactly
one match, else `DoesNotExist` / `MultipleObjectsReturned`. -/
def objectsGet (partition : List Entity) (flt : PartitionFilter) :
    Except PyError Entity :=
  match partition.filter (entityMatches flt) with
  | [] => .error .doesNotExist
  | [e] => .ok e
  | _ :: _ :: _ => .error .multipleObjectsReturned

/-- Modelled from the spec: the `update` helper (`from . import update`,
`model_utils/update.py` is not under `src/`) is the host ORM's generic
update-by-primary-key; it persists the new field value and sets the attribute
on the in-memory instance. -/
def update (e : Entity) (pos : Int) : Entity := { e with position := pos }

/-- Persist an updated entity back into the partition (replace the row with
the same primary key). -/
def writeBack (partition : List Entity) (e : Entity) : List Entity :=
  partition.map fun x => if x.id == e.id then e else x

/-- What a `move_to` call can return when it returns at all: Python `False`,
or the target position. -/
inductive MoveResult where
  | returnedFalse
  | returnedPosition (p : Int)
  deriving DecidableEq

/-- `PositionedModelMixin.move_to`, transcribed statement by statement.  The
source builds the lookup dict with `filter[position_f] = position` one line
BEFORE the assignment `position_f = self.get_position_field_name()`; since
`position_f` is assigned somewhere in the function body it is a local, and the
early read raises `UnboundLocalError`.  The remainder of the body (the query,
the three `update` calls, the returns) is transcribed after that read.
Returns the partition after any persisted writes together with the returned
value. -/
def move_to (partition : List Entity) (self : Entity) (position0 : Int) :
    Except PyError (List Entity × MoveResult) := do
  let position : Int := position0
  let filter : PartitionFilter := []
  let position_f ← readLocal none "position_f"
  let filter := (position_f, position) :: filter
  let position_f := "position"
  match objectsGet partition filter with
  | .error .doesNotExist => pure (partition, .returnedFalse)
  | .error e => .error e
  | .ok other =>
    let _ := position_f
    let self := update self 0
    let other := update other self.position
    let self := update self position
    pure (writeBack (writeBack partition other) self, .returnedPosition position)

/-- `PositionedModelMixin.refresh_positions`: the loop body, carrying the
`counter` local (initialised to 1 by the caller) down the partition's
enumeration order. -/
def refreshLoop : Int → List Entity → List Entity
  | _, [] => []
  | counter, obj :: rest => update obj counter :: refreshLoop (counter + 1) rest

/-- `PositionedModelMixin.refresh_positions`: renumber the partition with
`counter` starting at 1.  The queryset `self.__class__.objects.filter(filter)`
is abstracted as the partition list in its enumeration order. -/
def refresh_positions (partition : List Entity) : List Entity :=
  refreshLoop 1 partition

/-- Maximum position in the partition (`aggregate(Max(...))` yields `None`,
here `none`, on an empty queryset). -/
def maxPosition (l : List Entity) : Option Int := (l.map (·.position)).max?

/-- `PositionedModelMixin.get_next_free_position`: first
`self.refresh_positions()` runs (its writes persist), then the body evaluates
the bare name `Max`, which is bound neither as a function local nor at module
level in `models.py`.  The transcription of the rest (`if max_position:` is
Python-falsy on both `None` and `0`) follows that lookup.  Returns the
partition after the refresh together with the outcome. -/
def get_next_free_position (partition : List Entity) :
    List Entity × Except PyError Int :=
  let partition := refresh_positions partition
  (partition, do
    let _ ← resolveGlobal "Max"
    let max_position := maxPosition partition
    match max_position with
    | some m => if m == 0 then pure 1 else pure (m + 1)
    | none => pure 1)

/-- `PositionedModelMixin.move_up`: `return move_to(getattr(self, ...) - times)`.
In Python the callable is evaluated before its argument; `move_to` is a method
of the class, not a function local and not a module global, so the bare
reference is resolved against the module globals. -/
def move_up (partition : List Entity) (self : Entity) (times : Int) :
    Except PyError (List Entity × MoveResult) := do
  let _ ← resolveGlobal "move_to"
  move_to partition self (self.position - times)

/-- `PositionedModelMixin.move_down`: `return move_to(getattr(self, ...) + times)`,
same bare-name reference as `move_up`. -/
def move_down (partition : List Entity) (self : Entity) (times : Int) :
    Except PyError (List Entity × MoveResult) := do
  let _ ← resolveGlobal "move_to"
  move_to partition self (self.position + times)

/-- A model class at class-preparation time, as seen by the
`class_prepared` hooks: its name, its declared fields (`_meta.get_field`
succeeds exactly on these), whether it is a `StatusModel` subclass, its
`STATUS` choices as (value, name) pairs, and the query managers attached so
far, recorded as (attribute name, status value filtered on). -/
structure ModelClass where
  name : String
  fields : List String
  isStatusModel : Bool
  STATUS : List (String × String)
  managers : List (String × String)
  deriving DecidableEq

/-- The `ImproperlyConfigured` message raised by `add_status_query_managers`
(source quotes around the two interpolated names elided). -/
def statusConflictMsg (model status : String) : String :=
  "StatusModel: Model " ++ model ++ " has a field named " ++ status ++
    " which conflicts with a status of the same name."

/-- `sender.add_to_class(value, QueryManager(status=value))`: attach a query
manager under attribute `attr`, filtering on `status == value`. -/
def addToClass (s : ModelClass) (attr value : String) : ModelClass :=
  { s with managers := s.managers ++ [(attr, value)] }

/-- The `for value, name in getattr(sender, 'STATUS', ())` loop of
`add_status_query_managers`: if a declared field named `name` exists, raise
`ImproperlyConfigured` (it escapes the `except FieldDoesNotExist` clause);
otherwise attach the manager for `value` and continue. -/
def addStatusLoop : ModelClass → List (String × String) → Except PyError ModelClass
  | s, [] => .ok s
  | s, (value, name) :: rest =>
    if name ∈ s.fields then
      .error (.improperlyConfigured (statusConflictMsg s.name name))
    else
      addStatusLoop (addToClass s value value) rest

/-- `add_status_query_managers` (connected to the `class_prepared` signal):
no-op unless the sender subclasses `StatusModel`. -/
def add_status_query_managers (sender : ModelClass) : Except PyError ModelClass :=
  if sender.isStatusModel then addStatusLoop sender sender.STATUS else .ok sender

/-- An instance of a `StatusModel` subtype: its `status` value and its
`status_changed` timestamp. -/
structure StatusEntity where
  status : String
  status_changed : Int
  deriving DecidableEq

/-- Modelled from the spec: `QueryManager` lives in `model_utils/managers.py`,
which is not under `src/`; per the spec a query manager is equivalent to the
default manager with the fixed predicate applied.  This is the manager
attached for status `value`, i.e. the predicate `status == value`. -/
def statusQuery (value : String) (es : List StatusEntity) : List StatusEntity :=
  es.filter fun e => e.status == value

/-- Modelled from the spec: `MonitorField(monitor='status')` lives in
`model_utils/fields.py`, which is not under `src/`; per the spec it updates
`status_changed` to the current time at save time exactly when `status`
differs from its previously persisted value (`persisted`), and leaves it
unchanged otherwise. -/
def saveStatus (persisted : String) (e : StatusEntity) (now : Int) :
    StatusEntity :=
  if e.status == persisted then e else { e with status_changed := now }

/-- An instance of a `TimeFramedModel` subtype: nullable `start` and `end`
instants (`end` is a reserved word here, hence `end_`). -/
structure TimeFramedEntity where
  start : Option Int
  end_ : Option Int
  deriving DecidableEq

/-- The fixed predicate of the `timeframed` manager, transcribed from the `Q`
expression in `add_timeframed_query_manager`:
`(Q(start__lte=now) | Q(start__isnull=True)) & (Q(end__gte=now) | Q(end__isnull=True))`,
with SQL semantics for comparisons against NULL (false). -/
def timeframedPred (now : Int) (e : TimeFramedEntity) : Bool :=
  ((match e.start with | some s => decide (s ≤ now) | none => false)
      || e.start.isNone)
    && ((match e.end_ with | some s => decide (now ≤ s) | none => false)
      || e.end_.isNone)

/-- A model class at class-preparation time, as seen by
`add_timeframed_query_manager`: name, declared fields, whether it subclasses
`TimeFramedModel`, and the attached manager attribute names. -/
structure TFModelClass where
  name : String
  fields : List String
  isTimeFramed : Bool
  managers : List String
  deriving DecidableEq

/-- The `ImproperlyConfigured` message raised by
`add_timeframed_query_manager` (source quotes elided). -/
def timeframedConflictMsg (model : String) : String :=
  "Model " ++ model ++ " has a field named timeframed which conflicts " ++
    "with the TimeFramedModel manager."

/-- `add_timeframed_query_manager` (connected to the `class_prepared`
signal): no-op unless the sender subclasses `TimeFramedModel`; raise on an
existing `timeframed` field, else attach the manager. -/
def add_timeframed_query_manager (sender : TFModelClass) :
    Except PyError TFModelClass :=
  if sender.isTimeFramed then
    if "timeframed" ∈ sender.fields then
      .error (.improperlyConfigured (timeframedConflictMsg sender.name))
    else
      .ok { sender with managers := sender.managers ++ ["timeframed"] }
  else
    .ok sender

/-- Modelled from the spec: `QueryManager` (in `model_utils/managers.py`, not
under `src/`) applied to the `timeframed` predicate at query time `now`. -/
def timeframedQuery (now : Int) (es : List TimeFramedEntity) :
    List TimeFramedEntity :=
  es.filter (timeframedPred now)

/-- An instance of a `TimeStampedModel` subtype. -/
structure TimeStampedEntity where
  created : Int
  modified : Int
  deriving DecidableEq

/-- Modelled from the spec: `AutoCreatedField` / `AutoLastModifiedField` live
in `model_utils/fields.py`, which is not under `src/`; per the spec `created`
is set at first save and `modified` on every save, so the first save of a new
entity at time `now` sets both to `now`. -/
def createTimeStamped (now : Int) : TimeStampedEntity := ⟨now, now⟩

/-- Modelled from the spec: a subsequent save at time `now` updates
`modified` only. -/
def saveTimeStamped (e : TimeStampedEntity) (now : Int) : TimeStampedEntity :=
  { e with modified := now }

/-- A content-type descriptor (framework handle identifying a concrete model
type). -/
abbrev TypeDesc := Nat

/-- A persisted row of some concrete subtype: its type descriptor, primary
key, and payload distinguishing the instance. -/
structure Row where
  typ : TypeDesc
  pk : Nat
  payload : Nat
  deriving DecidableEq

/-- An `InheritanceCastModel` instance: primary key, `id` (`None` before the
first save), its own concrete type `cls` represented by that type's
content-type descriptor (`ContentType.objects.get_for_model` is the identity
on descriptors in this model), and the `real_type` field. -/
structure CastInstance where
  pk : Nat
  id : Option Nat
  cls : TypeDesc
  real_type : Option TypeDesc
  deriving DecidableEq

/-- Look up the row of type `rt` with primary key `pk` in the database. -/
def findRow (db : List Row) (rt : TypeDesc) (pk : Nat) : Option Row :=
  db.find? fun r => r.typ == rt && r.pk == pk

/-- `ContentType.get_object_for_this_type(pk=...)`: resolve an instance by
type descriptor and primary key; the underlying `DoesNotExist` propagates
when no row matches. -/
def get_object_for_this_type (db : List Row) (rt : TypeDesc) (pk : Nat) :
    Except PyError Row :=
  match findRow db rt pk with
  | some r => .ok r
  | none => .error .doesNotExist

/-- `InheritanceCastModel._get_real_type`:
`ContentType.objects.get_for_model(type(self))`. -/
def InheritanceCastModel.get_real_type (self : CastInstance) : TypeDesc :=
  self.cls

/-- `InheritanceCastModel.cast`:
`self.real_type.get_object_for_this_type(pk=self.pk)` (attribute access on a
`None` `real_type` would itself raise). -/
def InheritanceCastModel.cast (db : List Row) (self : CastInstance) :
    Except PyError Row :=
  match self.real_type with
  | none => .error (.attributeErrorNoneType "get_object_for_this_type")
  | some rt => get_object_for_this_type db rt self.pk

/-- `InheritanceCastModel.save`: `if not self.id:` (Python-falsy on `None`
and `0`) set `real_type` before delegating to the superclass save. -/
def InheritanceCastModel.save (self : CastInstance) : CastInstance :=
  if self.id = none ∨ self.id = some 0 then
    { self with real_type := some (InheritanceCastModel.get_real_type self) }
  else
    self

/-- C2: in `move_to` the lookup filter entry keyed by `position_f` is written
before `position_f` is assigned, so every invocation raises
`UnboundLocalError` at that line and execution never reaches the query or any
position mutation (the error result carries no updated state). -/
theorem moveTo_always_unbound_local (partition : List Entity) (self : Entity)
    (pos : Int) :
    move_to partition self pos = .error (.unboundLocal "position_f") := rfl

/-- C1 (code bug): on the spec's own example — a partition at positions
1, 2, 3 with the position-1 entity moving to target 3 — `move_to` does not
swap and return 3; it raises `UnboundLocalError` on `position_f`. -/
theorem moveTo_spec_example_raises :
    move_to [⟨1, 1⟩, ⟨2, 2⟩, ⟨3, 3⟩] ⟨1, 1⟩ 3 =
      .error (.unboundLocal "position_f") := rfl

/-- C4 (code bug): `get_next_free_position` on a five-entity partition (max
position 5 after renumbering) does not return 6; after the refresh it raises
`NameError` on the unbound module-level name `Max`. -/
theorem getNextFreePosition_raises_nameError_Max :
    (get_next_free_position
        [⟨1, 1⟩, ⟨2, 2⟩, ⟨3, 3⟩, ⟨4, 4⟩, ⟨5, 5⟩]).2 =
      .error (.nameError "Max") := rfl

/-- C5: `move_up` and `move_down` reference the bare name `move_to`, which is
neither a local nor a module global of `models.py`, so every invocation of
either raises `NameError` and the intended delegation to `move_to` never
happens (no state is produced). -/
theorem moveUp_moveDown_nameError (partition : List Entity) (self : Entity)
    (times : Int) :
    move_up partition self times = .error (.nameError "move_to") ∧
    move_down partition self times = .error (.nameError "move_to") :=
  ⟨rfl, rfl⟩

theorem refreshLoop_map_id (c : Int) (l : List Entity) :
    (refreshLoop c l).map (·.id) = l.map (·.id) := by
  induction l generalizing c with
  | nil => rfl
  | cons obj rest ih => simp [refreshLoop, update, ih]

theorem refreshLoop_map_position (c : Int) (l : List Entity) :
    (refreshLoop c l).map (·.position) =
      (List.range l.length).map (fun i : Nat => c + (i : Int)) := by
  induction l generalizing c with
  | nil => rfl
  | cons obj rest ih =>
    rw [show refreshLoop c (obj :: rest) = update obj c :: refreshLoop (c + 1) rest from rfl,
      List.map_cons, ih, List.length_cons, List.range_succ_eq_map,
      List.map_cons, List.map_map]
    congr 1
    · simp [update]
    · refine List.map_congr_left fun a _ => ?_
      simp [Function.comp]
      omega

/-- C10: after `refresh_positions`, the partition's entities are unchanged (as
primary keys, in order) and their positions are exactly 1, 2, ..., N in the
partition's enumeration order: unique, contiguous, and starting at 1. -/
theorem refresh_positions_renumbers (p : List Entity) :
    (refresh_positions p).map (·.id) = p.map (·.id) ∧
    (refresh_positions p).map (·.position) =
      (List.range p.length).map (fun i : Nat => (i : Int) + 1) ∧
    ((refresh_positions p).map (·.position)).Nodup ∧
    ∀ q : Int, q ∈ (refresh_positions p).map (·.position) ↔
      1 ≤ q ∧ q ≤ p.length := by
  have hpos : (refresh_positions p).map (·.position) =
      (List.range p.length).map (fun i : Nat => (i : Int) + 1) := by
    rw [refresh_positions, refreshLoop_map_position]
    exact List.map_congr_left fun a _ => by omega
  refine ⟨refreshLoop_map_id 1 p, hpos, ?_, ?_⟩
  · rw [hpos]
    exact (List.nodup_range p.length).map fun a b h => by omega
  · intro q
    rw [hpos]
    simp only [List.mem_map, List.mem_range]
    constructor
    · rintro ⟨i, hi, hq⟩
      omega
    · intro hq
      exact ⟨(q - 1).toNat, by omega, by omega⟩

theorem addStatusLoop_no_collision (pairs : List (String × String)) :
    ∀ s : ModelClass, (∀ p ∈ pairs, p.2 ∉ s.fields) →
      addStatusLoop s pairs =
        .ok { s with managers := s.managers ++ pairs.map fun p => (p.1, p.1) } := by
  induction pairs with
  | nil => intro s _; simp [addStatusLoop]
  | cons hd tl ih =>
    intro s h
    obtain ⟨value, name⟩ := hd
    have hn : name ∉ s.fields := h (value, name) (by simp)
    simp only [addStatusLoop, hn, if_neg, ite_false]
    rw [ih (addToClass s value value)
      (fun p hp => h p (List.mem_cons_of_mem _ hp))]
    simp [addToClass]

theorem addStatusLoop_collision (pre : List (String × String)) :
    ∀ (s : ModelClass) (value name : String) (post : List (String × String)),
      (∀ p ∈ pre, p.2 ∉ s.fields) → name ∈ s.fields →
      addStatusLoop s (pre ++ (value, name) :: post) =
        .error (.improperlyConfigured (statusConflictMsg s.name name)) := by
  induction pre with
  | nil =>
    intro s value name post _ hn
    simp [addStatusLoop, hn]
  | cons hd tl ih =>
    intro s value name post hpre hn
    obtain ⟨v0, n0⟩ := hd
    have h0 : n0 ∉ s.fields := hpre (v0, n0) (by simp)
    simp only [List.cons_append, addStatusLoop, h0, if_neg, ite_false]
    exact ih (addToClass s v0 v0) value name post
      (fun p hp => hpre p (List.mem_cons_of_mem _ hp)) hn

/-- C3: at class-preparation of a `StatusModel` subtype, when no declared
(value, name) pair's name collides with a declared field, every pair gets a
query-manager attribute named after its value and filtered to
`status == value`; and when a pair's name does collide (the first such), the
declaration fails with `ImproperlyConfigured` naming the conflicting name. -/
theorem add_status_query_managers_spec (s : ModelClass)
    (hs : s.isStatusModel = true) :
    ((∀ p ∈ s.STATUS, p.2 ∉ s.fields) →
      add_status_query_managers s =
        .ok { s with managers := s.managers ++ s.STATUS.map fun p => (p.1, p.1) }) ∧
    (∀ (value name : String) (pre post : List (String × String)),
      s.STATUS = pre ++ (value, name) :: post →
      (∀ p ∈ pre, p.2 ∉ s.fields) → name ∈ s.fields →
      add_status_query_managers s =
        .error (.improperlyConfigured (statusConflictMsg s.name name))) := by
  have hrw : add_status_query_managers s = addStatusLoop s s.STATUS := by
    simp [add_status_query_managers, hs]
  constructor
  · intro h
    rw [hrw]
    exact addStatusLoop_no_collision s.STATUS s h
  · intro value name pre post hSTAT hpre hn
    rw [hrw, hSTAT]
    exact addStatusLoop_collision pre s value name post hpre hn

theorem add_status_query_managers_spec_witness :
    add_status_query_managers
        ⟨"Article", ["title"], true,
          [("published", "Published"), ("draft", "Draft")], []⟩ =
      .ok ⟨"Article", ["title"], true,
        [("published", "Published"), ("draft", "Draft")],
        [("published", "published"), ("draft", "draft")]⟩ ∧
    add_status_query_managers
        ⟨"Post", ["title"], true, [("active", "title")], []⟩ =
      .error (.improperlyConfigured (statusConflictMsg "Post" "title")) := by
  constructor
  · exact (add_status_query_managers_spec
      ⟨"Article", ["title"], true,
        [("published", "Published"), ("draft", "Draft")], []⟩ rfl).1
      (by decide)
  · exact (add_status_query_managers_spec
      ⟨"Post", ["title"], true, [("active", "title")], []⟩ rfl).2
      "active" "title" [] [] rfl (by simp) (by decide)

/-- C6: at class-preparation of a `TimeFramedModel` subtype, a query manager
named `timeframed` is attached with predicate "(`start` unset OR
`start <= now`) AND (`end` unset OR `end >= now`)" — so an entity with both
unset is always in the `timeframed` query, one whose `start` is in the future
is excluded, and one whose `end` is in the past is excluded — and the
declaration fails with `ImproperlyConfigured` when a field named `timeframed`
already exists. -/
theorem add_timeframed_query_manager_spec (s : TFModelClass)
    (hs : s.isTimeFramed = true) :
    ("timeframed" ∉ s.fields →
      add_timeframed_query_manager s =
        .ok { s with managers := s.managers ++ ["timeframed"] }) ∧
    ("timeframed" ∈ s.fields →
      add_timeframed_query_manager s =
        .error (.improperlyConfigured (timeframedConflictMsg s.name))) ∧
    (∀ (now : Int) (es : List TimeFramedEntity) (e : TimeFramedEntity),
      e ∈ es → e.start = none → e.end_ = none → e ∈ timeframedQuery now es) ∧
    (∀ (now : Int) (es : List TimeFramedEntity) (e : TimeFramedEntity)
      (st : Int), e.start = some st → now < st → e ∉ timeframedQuery now es) ∧
    (∀ (now : Int) (es : List TimeFramedEntity) (e : TimeFramedEntity)
      (en : Int), e.end_ = some en → en < now → e ∉ timeframedQuery now es) := by
  refine ⟨?_, ?_, ?_, ?_, ?_⟩
  · intro h
    simp [add_timeframed_query_manager, hs, h]
  · intro h
    simp [add_timeframed_query_manager, hs, h]
  · intro now es e he hst hen
    rw [timeframedQuery, List.mem_filter]
    exact ⟨he, by simp [timeframedPred, hst, hen]⟩
  · intro now es e st hst hlt hmem
    rw [timeframedQuery, List.mem_filter] at hmem
    have := hmem.2
    simp [timeframedPred, hst] at this
    omega
  · intro now es e en hen hlt hmem
    rw [timeframedQuery, List.mem_filter] at hmem
    have := hmem.2
    simp [timeframedPred, hen] at this
    omega

theorem add_timeframed_query_manager_spec_witness :
    add_timeframed_query_manager ⟨"Event", ["venue"], true, []⟩ =
      .ok ⟨"Event", ["venue"], true, ["timeframed"]⟩ ∧
    add_timeframed_query_manager ⟨"Show", ["timeframed"], true, []⟩ =
      .error (.improperlyConfigured (timeframedConflictMsg "Show")) ∧
    (⟨none, none⟩ : TimeFramedEntity) ∈
      timeframedQuery 100 [⟨none, none⟩, ⟨some 200, none⟩, ⟨none, some 50⟩] ∧
    (⟨some 200, none⟩ : TimeFramedEntity) ∉
      timeframedQuery 100 [⟨none, none⟩, ⟨some 200, none⟩, ⟨none, some 50⟩] ∧
    (⟨none, some 50⟩ : TimeFramedEntity) ∉
      timeframedQuery 100 [⟨none, none⟩, ⟨some 200, none⟩, ⟨none, some 50⟩] := by
  have h := add_timeframed_query_manager_spec ⟨"Event", ["venue"], true, []⟩ rfl
  have h2 := add_timeframed_query_manager_spec ⟨"Show", ["timeframed"], true, []⟩ rfl
  refine ⟨h.1 (by decide), h2.2.1 (by decide), ?_, ?_, ?_⟩
  · exact h.2.2.1 100 _ ⟨none, none⟩ (by simp) rfl rfl
  · exact h.2.2.2.1 100 _ ⟨some 200, none⟩ 200 rfl (by omega)
  · exact h.2.2.2.2 100 _ ⟨none, some 50⟩ 50 rfl (by omega)

/-- C7: immediately after creation `created == modified`; a subsequent save
at a strictly later clock reading strictly increases `modified`, leaves
`created` unchanged, and preserves `created <= modified`. -/
theorem timeStamped_invariants (t now : Int) (e : TimeStampedEntity)
    (hnow : e.modified < now) :
    (createTimeStamped t).created = (createTimeStamped t).modified ∧
    e.modified < (saveTimeStamped e now).modified ∧
    (saveTimeStamped e now).created = e.created ∧
    (e.created ≤ e.modified →
      (saveTimeStamped e now).created ≤ (saveTimeStamped e now).modified) := by
  refine ⟨rfl, ?_, rfl, ?_⟩
  · simpa [saveTimeStamped] using hnow
  · intro h
    simp only [saveTimeStamped]
    omega

theorem timeStamped_invariants_witness :
    (createTimeStamped 0).created = (createTimeStamped 0).modified ∧
    (createTimeStamped 0).modified <
      (saveTimeStamped (createTimeStamped 0) 1).modified ∧
    (saveTimeStamped (createTimeStamped 0) 1).created =
      (createTimeStamped 0).created ∧
    ((createTimeStamped 0).created ≤ (createTimeStamped 0).modified →
      (saveTimeStamped (createTimeStamped 0) 1).created ≤
        (saveTimeStamped (createTimeStamped 0) 1).modified) :=
  timeStamped_invariants 0 1 (createTimeStamped 0) (by decide)

/-- C8: at save time `status_changed` is set to the current time exactly when
`status` differs from its previously persisted value and is left unchanged
otherwise; and the per-status query shortcut for a status returns exactly the
entities whose `status` equals it. -/
theorem statusModel_monitor_and_query (persisted : String) (e : StatusEntity)
    (now : Int) (es : List StatusEntity) (A : String) :
    (e.status ≠ persisted → (saveStatus persisted e now).status_changed = now) ∧
    (e.status = persisted → saveStatus persisted e now = e) ∧
    (∀ x, x ∈ statusQuery A es ↔ x ∈ es ∧ x.status = A) := by
  refine ⟨?_, ?_, ?_⟩
  · intro h
    simp [saveStatus, h]
  · intro h
    simp [saveStatus, h]
  · intro x
    simp [statusQuery, List.mem_filter]

theorem statusModel_monitor_and_query_witness :
    (saveStatus "draft" ⟨"published", 5⟩ 7).status_changed = 7 ∧
    saveStatus "published" ⟨"published", 5⟩ 7 = ⟨"published", 5⟩ ∧
    ((⟨"published", 5⟩ : StatusEntity) ∈
        statusQuery "published" [⟨"published", 5⟩, ⟨"draft", 3⟩] ↔
      (⟨"published", 5⟩ : StatusEntity) ∈
        ([⟨"published", 5⟩, ⟨"draft", 3⟩] : List StatusEntity) ∧
      ("published" : String) = "published") :=
  ⟨(statusModel_monitor_and_query "draft" ⟨"published", 5⟩ 7 [] "").1
      (by decide),
   (statusModel_monitor_and_query "published" ⟨"published", 5⟩ 7 [] "").2.1 rfl,
   (statusModel_monitor_and_query "" ⟨"", 0⟩ 0
      [⟨"published", 5⟩, ⟨"draft", 3⟩] "published").2.2 ⟨"published", 5⟩⟩

/-- C9: `cast()` resolves through the recorded `real_type` (which `save` sets
at first save, i.e. when `id` is Python-falsy): when a row of that type with
the caller's primary key exists, `cast` returns it (it shares the caller's
primary key); when none exists, `cast` propagates the underlying
`DoesNotExist`. -/
theorem inheritanceCast_cast_spec (db : List Row) (self : CastInstance)
    (rt : TypeDesc) (h : self.real_type = some rt) :
    (∀ r, findRow db rt self.pk = some r →
      InheritanceCastModel.cast db self = .ok r ∧ r.pk = self.pk ∧ r.typ = rt) ∧
    (findRow db rt self.pk = none →
      InheritanceCastModel.cast db self = .error .doesNotExist) ∧
    ((self.id = none ∨ self.id = some 0) →
      (InheritanceCastModel.save self).real_type = some self.cls) := by
  refine ⟨?_, ?_, ?_⟩
  · intro r hr
    have hp := List.find?_some hr
    simp only [Bool.and_eq_true, beq_iff_eq] at hp
    refine ⟨?_, hp.2, hp.1⟩
    simp [InheritanceCastModel.cast, h, get_object_for_this_type, hr]
  · intro hr
    simp [InheritanceCastModel.cast, h, get_object_for_this_type, hr]
  · intro h0
    simp [InheritanceCastModel.save, h0, InheritanceCastModel.get_real_type]

theorem inheritanceCast_cast_spec_witness :
    (InheritanceCastModel.cast [⟨2, 10, 42⟩] ⟨10, some 10, 2, some 2⟩ =
      .ok ⟨2, 10, 42⟩ ∧ (10 : Nat) = 10 ∧ (2 : Nat) = 2) ∧
    InheritanceCastModel.cast [] ⟨10, some 10, 2, some 2⟩ =
      .error .doesNotExist ∧
    (InheritanceCastModel.save ⟨10, none, 2, some 2⟩).real_type = some 2 :=
  ⟨(inheritanceCast_cast_spec [⟨2, 10, 42⟩] ⟨10, some 10, 2, some 2⟩ 2 rfl).1
      ⟨2, 10, 42⟩ rfl,
   (inheritanceCast_cast_spec [] ⟨10, some 10, 2, some 2⟩ 2 rfl).2.1 rfl,
   (inheritanceCast_cast_spec [] ⟨10, none, 2, some 2⟩ 2 rfl).2.2 (Or.inl rfl)⟩

theorem moveTo_always_unbound_local_witness :
    move_to [⟨1, 1⟩, ⟨2, 2⟩] ⟨1, 1⟩ 2 = .error (.unboundLocal "position_f") :=
  moveTo_always_unbound_local [⟨1, 1⟩, ⟨2, 2⟩] ⟨1, 1⟩ 2

theorem moveUp_moveDown_nameError_witness :
    move_up [⟨1, 1⟩, ⟨2, 2⟩] ⟨2, 2⟩ 1 = .error (.nameError "move_to") ∧
    move_down [⟨1, 1⟩, ⟨2, 2⟩] ⟨1, 1⟩ 1 = .error (.nameError "move_to") :=
  ⟨(moveUp_moveDown_nameError [⟨1, 1⟩, ⟨2, 2⟩] ⟨2, 2⟩ 1).1,
   (moveUp_moveDown_nameError [⟨1, 1⟩, ⟨2, 2⟩] ⟨1, 1⟩ 1).2⟩

theorem refresh_positions_renumbers_witness :
    (refresh_positions [⟨5, 9⟩, ⟨7, 4⟩, ⟨2, 4⟩]).map (·.id) = [5, 7, 2] ∧
    (refresh_positions [⟨5, 9⟩, ⟨7, 4⟩, ⟨2, 4⟩]).map (·.position) = [1, 2, 3] ∧
    ((refresh_positions [⟨5, 9⟩, ⟨7, 4⟩, ⟨2, 4⟩]).map (·.position)).Nodup ∧
    ((2 : Int) ∈ (refresh_positions [⟨5, 9⟩, ⟨7, 4⟩, ⟨2, 4⟩]).map (·.position) ↔
      1 ≤ (2 : Int) ∧ (2 : Int) ≤ (3 : Nat)) := by
  have h := refresh_positions_renumbers [⟨5, 9⟩, ⟨7, 4⟩, ⟨2, 4⟩]
  exact ⟨h.1, by simpa using h.2.1, h.2.2.1, by simpa using h.2.2.2 2⟩
